import Mathlib

/-!
Verification of the sentence-browser script `show_sentences.py`.

The script loads a pickled table of annotated sentences, drops incomplete
rows, reads three sidebar controls (a chapter slider converted with `str`,
a type multiselect defaulting to all distinct types, a label multiselect
defaulting to all distinct labels), filters the table by the conjunction of
the three conditions, and renders the result sorted by `sentence_id` and
grouped by `type`.

We embed the table as a list of rows.  Because the script compares the
column `chapter` (of unknown stored runtime type) with a Python string
produced by `str(st.sidebar.slider(...))`, chapter cells are modelled as a
sum of the two runtime representations that matter, with Python's
cross-type `==` returning `False`.
-/

/-- A Python runtime value as far as the `chapter` column is concerned:
either an integer or a string. -/
inductive PyVal where
  | int (n : Int)
  | str (s : String)
  deriving DecidableEq, Repr

/-- Python `==` on such values: equal integers compare equal, equal strings
compare equal, and an integer never equals a string. -/
def pyEq : PyVal → PyVal → Bool
  | PyVal.int n, PyVal.int m => n == m
  | PyVal.str s, PyVal.str t => s == t
  | _, _ => false

/-- One row of the loaded table (`SentenceRecord`). -/
structure Row where
  chapter : PyVal
  type : String
  sentence_id : Int
  text : String
  annotations : List String
  deriving DecidableEq, Repr

/-- One row of the on-disk pickled table, before `dropna`: any field may be
missing. -/
structure RawRow where
  chapter : Option PyVal
  type : Option String
  sentence_id : Option Int
  text : Option String
  annotations : Option (List String)
  deriving DecidableEq, Repr

/-- `dropna` semantics for one raw row: the row survives exactly when every
field is present. -/
def toRow (raw : RawRow) : Option Row :=
  match raw.chapter, raw.type, raw.sentence_id, raw.text, raw.annotations with
  | some c, some t, some s, some x, some a => some ⟨c, t, s, x, a⟩
  | _, _, _, _, _ => none

/-- `load_data` without the memoization layer: deserialize the table and
`dropna()` it, i.e. keep exactly the rows with no missing field. -/
def load_data (raws : List RawRow) : List Row :=
  raws.filterMap toRow

/-- The `@st.cache()` layer around `load_data`: a call first consults the
session cache; on a miss it computes `load_data` and stores the result.
Returns the table together with the updated cache. -/
def load_step (cache : Option (List Row)) (raws : List RawRow) :
    List Row × Option (List Row) :=
  match cache with
  | some t => (t, some t)
  | none => (load_data raws, some (load_data raws))

/-- `chapter = str(st.sidebar.slider("Chapter", 1, 26))`: the slider value
rendered as a Python string. -/
def chapterStr (n : Nat) : String := toString n

/-- The sidebar state read on a render pass: the slider value and the two
multiselect subsets. -/
structure Selection where
  chapterSel : Nat
  types : List String
  labels : List String

/-- Condition 1 of the filter, `data.chapter == chapter`: the row's stored
chapter compared by Python `==` with the string-rendered slider value. -/
def chapterCond (r : Row) (n : Nat) : Bool :=
  pyEq r.chapter (PyVal.str (chapterStr n))

/-- Condition 2 of the filter, `data.type.isin(type_)`. -/
def typeCond (r : Row) (ts : List String) : Bool :=
  ts.contains r.type

/-- Condition 3 of the filter,
`data.annotations.apply(lambda x: any(label in x for label in included_labels))`. -/
def labelCond (r : Row) (ls : List String) : Bool :=
  ls.any (fun label => r.annotations.contains label)

/-- The row predicate of the boolean mask built with
`np.logical_and.reduce`. -/
def rowPred (sel : Selection) (r : Row) : Bool :=
  chapterCond r sel.chapterSel && typeCond r sel.types && labelCond r sel.labels

/-- `filtered_data = data[np.logical_and.reduce([...])]`: the rows of the
table whose mask entry is true, in table order. -/
def filtered_data (data : List Row) (sel : Selection) : List Row :=
  data.filter (rowPred sel)

/-- `data.type.unique()`: the distinct `type` values of the table, the
default of the type multiselect. -/
def unique_types (data : List Row) : List String :=
  (data.map Row.type).dedup

/-- `list(set([label for ll in data.annotations for label in ll]))`: the
distinct labels occurring in any row's annotations, the default of the
label multiselect. -/
def unique_labels (data : List Row) : List String :=
  (data.flatMap Row.annotations).dedup

/-- Row order used by the renderer, `a` before `b` when
`a.sentence_id ≤ b.sentence_id`. -/
def sidLe (a b : Row) : Prop := a.sentence_id ≤ b.sentence_id

instance : DecidableRel sidLe := fun a b => Int.decLe a.sentence_id b.sentence_id

instance : IsTotal Row sidLe := ⟨fun a b => Int.le_total a.sentence_id b.sentence_id⟩

instance : IsTrans Row sidLe := ⟨fun _ _ _ h h' => le_trans h h'⟩

/-- `filtered_data.sort_values("sentence_id")`. -/
def sortBySid (rows : List Row) : List Row :=
  List.insertionSort sidLe rows

/-- Lexicographic comparison of character sequences by code point, the
order Python (and hence pandas `groupby`) uses on strings. -/
def lexLe : List Char → List Char → Bool
  | [], _ => true
  | _ :: _, [] => false
  | a :: as, b :: bs =>
    if a.toNat < b.toNat then true
    else if b.toNat < a.toNat then false
    else lexLe as bs

/-- The string order used when pandas sorts the `groupby` keys. -/
def strLe (s t : String) : Prop := lexLe s.data t.data = true

instance : DecidableRel strLe :=
  fun s t => inferInstanceAs (Decidable (lexLe s.data t.data = true))

lemma lexLe_total (as : List Char) : ∀ bs, lexLe as bs = true ∨ lexLe bs as = true := by
  induction as with
  | nil => intro bs; exact Or.inl rfl
  | cons a as ih =>
    intro bs
    cases bs with
    | nil => exact Or.inr rfl
    | cons b bs =>
      simp only [lexLe]
      rcases Nat.lt_trichotomy a.toNat b.toNat with h | h | h
      · left; simp [h]
      · rcases ih bs with h' | h' <;>
          [left; right] <;> simp [h, h', Nat.lt_irrefl]
      · right; simp [h]

lemma lexLe_trans (as : List Char) :
    ∀ bs cs, lexLe as bs = true → lexLe bs cs = true → lexLe as cs = true := by
  induction as with
  | nil => intro bs cs _ _; rfl
  | cons a as ih =>
    intro bs cs h1 h2
    cases bs with
    | nil => simp [lexLe] at h1
    | cons b bs =>
      cases cs with
      | nil => simp [lexLe] at h2
      | cons c cs =>
        simp only [lexLe] at h1 h2 ⊢
        split_ifs at h1 h2 ⊢ <;>
          first
            | rfl
            | omega
            | exact ih bs cs h1 h2

instance : IsTotal String strLe := ⟨fun s t => lexLe_total s.data t.data⟩

instance : IsTrans String strLe := ⟨fun s t u => lexLe_trans s.data t.data u.data⟩

/-- The group keys produced by `groupby("type")`: the distinct `type`
values, in ascending order. -/
def groupKeys (rows : List Row) : List String :=
  List.insertionSort strLe ((rows.map Row.type).dedup)

/-- `sort_values("sentence_id").groupby("type")`: each distinct type in
ascending order, paired with the rows of that type in `sentence_id`
order. -/
def groupRows (rows : List Row) : List (String × List Row) :=
  (groupKeys rows).map (fun t => (t, (sortBySid rows).filter (fun r => r.type == t)))

/-- The markdown block `st.write` receives for one row: the f-string with
the row's annotations joined by a comma and the row's text. -/
def renderRow (r : Row) : String :=
  "\n        **" ++ String.intercalate ", " r.annotations ++ "**\n\n        "
    ++ r.text ++ "\n        "

/-- The rendered output: for each group, the `st.subheader` heading (the
group's type value) and the blocks written for its rows. -/
def renderGroups (rows : List Row) : List (String × List String) :=
  (groupRows rows).map (fun g => (g.1, g.2.map renderRow))

/-! ### Helper lemmas shared across the development -/

lemma mem_filtered_iff (data : List Row) (sel : Selection) (r : Row) :
    r ∈ filtered_data data sel ↔
      r ∈ data ∧ chapterCond r sel.chapterSel = true ∧
        typeCond r sel.types = true ∧ labelCond r sel.labels = true := by
  simp [filtered_data, List.mem_filter, rowPred, Bool.and_eq_true, and_assoc]

lemma mem_unique_labels (data : List Row) (l : String) :
    l ∈ unique_labels data ↔ ∃ r, r ∈ data ∧ l ∈ r.annotations := by
  simp [unique_labels, List.mem_dedup, List.mem_flatMap]

lemma typeCond_mem_iff (r : Row) (ts : List String) :
    typeCond r ts = true ↔ r.type ∈ ts := by
  simp [typeCond]

lemma labelCond_mem_iff (r : Row) (ls : List String) :
    labelCond r ls = true ↔ ∃ l ∈ ls, l ∈ r.annotations := by
  simp [labelCond, List.any_eq_true]

lemma typeCond_unique_types (data : List Row) (r : Row) (h : r ∈ data) :
    typeCond r (unique_types data) = true := by
  rw [typeCond_mem_iff]
  simp only [unique_types, List.mem_dedup, List.mem_map]
  exact ⟨r, h, rfl⟩

lemma labelCond_unique_labels (data : List Row) (r : Row) (h : r ∈ data) :
    labelCond r (unique_labels data) = true ↔ r.annotations ≠ [] := by
  rw [labelCond_mem_iff]
  constructor
  · rintro ⟨l, _, hl⟩ hnil
    rw [hnil] at hl
    exact (List.not_mem_nil l) hl
  · intro hne
    obtain ⟨l, hl⟩ := List.exists_mem_of_ne_nil r.annotations hne
    exact ⟨l, (mem_unique_labels data l).mpr ⟨r, h, hl⟩, hl⟩

/-! ### Claim theorems -/

/-- Claim C1: for every loaded table and selection, the filtered view
contains exactly the rows of the table satisfying the conjunction of the
chapter condition, type membership, and non-empty intersection of the
row's annotations with the selected labels, and no other rows. -/
theorem c1_filtered_view_exact (data : List Row) (sel : Selection) (r : Row) :
    r ∈ filtered_data data sel ↔
      r ∈ data ∧ chapterCond r sel.chapterSel = true ∧ r.type ∈ sel.types ∧
        ∃ l ∈ sel.labels, l ∈ r.annotations := by
  rw [mem_filtered_iff data sel r, typeCond_mem_iff, labelCond_mem_iff]

/-- Claim C2, counterexample: a row that stores chapter as the integer `1`
denotes the same chapter number as the selected chapter `1`, yet the
chapter condition evaluates to false, because the script compares the cell
with the string `str(1)` and Python's `==` never equates an integer with a
string. -/
theorem c2_counterexample :
    chapterCond ⟨PyVal.int 1, "A", 1, "Hi", ["greeting"]⟩ 1 = false ∧
      PyVal.int 1 ≠ PyVal.str (chapterStr 1) := by decide

/-- Claim C2 as amended: the chapter condition holds exactly when the row's
stored chapter is the string rendering of the selected chapter; a row
storing the same chapter number in any other representation (e.g. as an
integer) never satisfies it. -/
theorem c2_amended_chapterCond_iff (r : Row) (n : Nat) :
    chapterCond r n = true ↔ r.chapter = PyVal.str (chapterStr n) := by
  cases h : r.chapter <;> simp [chapterCond, pyEq, h]

/-- Row used by the C3 counterexample: its chapter matches a selection of
chapter 1, but its annotations are empty. -/
def chapterOneEmptyRow : Row := ⟨PyVal.str "1", "A", 1, "Hi", []⟩

/-- Claim C3, counterexample: in a one-row table whose row matches the
selected chapter but has empty annotations, selecting the full default
type and label sets yields an empty filtered view, not the
chapter-matching row. -/
theorem c3_counterexample :
    chapterCond chapterOneEmptyRow 1 = true ∧
      filtered_data [chapterOneEmptyRow]
        ⟨1, unique_types [chapterOneEmptyRow],
          unique_labels [chapterOneEmptyRow]⟩ = [] := by decide

/-- Claim C3 as amended: with the full default type and label selections,
the filtered view contains exactly the rows whose chapter matches the
selection and whose annotations sequence is non-empty, regardless of the
row's type. -/
theorem c3_amended_default_filter (data : List Row) (c : Nat) (r : Row) :
    r ∈ filtered_data data ⟨c, unique_types data, unique_labels data⟩ ↔
      r ∈ data ∧ chapterCond r c = true ∧ r.annotations ≠ [] := by
  rw [mem_filtered_iff]
  constructor
  · rintro ⟨hd, hch, -, hlb⟩
    exact ⟨hd, hch, (labelCond_unique_labels data r hd).mp hlb⟩
  · rintro ⟨hd, hch, hne⟩
    exact ⟨hd, hch, typeCond_unique_types data r hd,
      (labelCond_unique_labels data r hd).mpr hne⟩

/-- Claim C4: a row with empty annotations is never a member of any
filtered view, for any table and any selection, including the empty label
selection. -/
theorem c4_empty_annotations_excluded (data : List Row) (sel : Selection)
    (r : Row) (h : r.annotations = []) : r ∉ filtered_data data sel := by
  intro hmem
  have hlb := ((mem_filtered_iff data sel r).mp hmem).2.2.2
  rw [labelCond_mem_iff] at hlb
  obtain ⟨l, -, hl⟩ := hlb
  rw [h] at hl
  exact (List.not_mem_nil l) hl

/-- Row used by the C4 witness: empty annotations. -/
def c4row : Row := ⟨PyVal.str "1", "A", 1, "x", []⟩

/-- Witness for C4 at a concrete table and selection. -/
theorem c4_witness :
    c4row.annotations = [] ∧
      c4row ∉ filtered_data [c4row] ⟨1, ["A"], ["g"]⟩ :=
  ⟨rfl, c4_empty_annotations_excluded [c4row] ⟨1, ["A"], ["g"]⟩ c4row rfl⟩

/-- Claim C5: when the label selection is the full default set computed
from the table, a row of the table satisfies the label condition exactly
when its annotations sequence is non-empty. -/
theorem c5_default_labels_iff_nonempty (data : List Row) (r : Row)
    (h : r ∈ data) :
    labelCond r (unique_labels data) = true ↔ r.annotations ≠ [] :=
  labelCond_unique_labels data r h

/-- Row used by the C5 witness. -/
def c5row : Row := ⟨PyVal.str "1", "A", 1, "Hi", ["greeting"]⟩

/-- Witness for C5 at a concrete one-row table. -/
theorem c5_witness :
    c5row ∈ [c5row] ∧
      (labelCond c5row (unique_labels [c5row]) = true ↔
        c5row.annotations ≠ []) :=
  ⟨by decide, c5_default_labels_iff_nonempty [c5row] c5row (by decide)⟩

/-- Claim C6: the label universe offered by the label selector is
duplicate-free and contains exactly the labels occurring inside some row's
annotations in the full loaded table; it is a function of the table alone,
not of the chapter or type selections. -/
theorem c6_unique_labels_universe (data : List Row) :
    (unique_labels data).Nodup ∧
      ∀ l, l ∈ unique_labels data ↔ ∃ r, r ∈ data ∧ l ∈ r.annotations :=
  ⟨List.nodup_dedup _, fun l => mem_unique_labels data l⟩

/-- Claim C7: in the rendered output of any filtered view, the group keys
are duplicate-free and appear in ascending string order, and every row
placed in a group carries exactly the group's type value, which is the
heading emitted for it. -/
theorem c7_groups_sorted_headings (data : List Row) (sel : Selection) :
    List.Sorted strLe ((groupRows (filtered_data data sel)).map Prod.fst) ∧
      ((groupRows (filtered_data data sel)).map Prod.fst).Nodup ∧
      ∀ g ∈ groupRows (filtered_data data sel), ∀ r ∈ g.2, r.type = g.1 := by
  have hkeys : (groupRows (filtered_data data sel)).map Prod.fst
      = groupKeys (filtered_data data sel) := by
    unfold groupRows
    rw [List.map_map]
    exact List.map_id' _
  refine ⟨?_, ?_, ?_⟩
  · rw [hkeys]
    exact List.sorted_insertionSort strLe _
  · rw [hkeys]
    exact ((List.perm_insertionSort strLe _).nodup_iff).mpr
      (List.nodup_dedup _)
  · intro g hg r hr
    obtain ⟨t, ht, rfl⟩ := List.mem_map.mp hg
    exact eq_of_beq (List.mem_filter.mp hr).2

/-- Table used by the C7 witness: two rows of types B and A in chapter 1. -/
def c7data : List Row :=
  [⟨PyVal.str "1", "B", 2, "t2", ["g"]⟩, ⟨PyVal.str "1", "A", 1, "t1", ["g"]⟩]

/-- Selection used by the C7 witness. -/
def c7sel : Selection := ⟨1, ["A", "B"], ["g"]⟩

/-- Witness for C7 at a concrete table, selection, group and row. -/
theorem c7_witness :
    (("A", [(⟨PyVal.str "1", "A", 1, "t1", ["g"]⟩ : Row)])
        ∈ groupRows (filtered_data c7data c7sel)) ∧
      (⟨PyVal.str "1", "A", 1, "t1", ["g"]⟩ : Row).type = "A" :=
  ⟨by decide,
    (c7_groups_sorted_headings c7data c7sel).2.2
      ("A", [(⟨PyVal.str "1", "A", 1, "t1", ["g"]⟩ : Row)]) (by decide)
      (⟨PyVal.str "1", "A", 1, "t1", ["g"]⟩ : Row) (by decide)⟩

/-- Claim C8: within every group of the rendered output, the rows appear
in non-decreasing `sentence_id` order; the group contributes to the
rendered groups exactly its heading with the block of each of its rows,
and that block is the bold comma-joined annotations (in stored order)
followed by the row's text. -/
theorem c8_within_group_order_render (data : List Row) (sel : Selection) :
    ∀ g ∈ groupRows (filtered_data data sel),
      List.Sorted sidLe g.2 ∧
        (g.1, g.2.map renderRow) ∈ renderGroups (filtered_data data sel) ∧
        ∀ r ∈ g.2,
          renderRow r = "\n        **"
            ++ String.intercalate ", " r.annotations ++ "**\n\n        "
            ++ r.text ++ "\n        " := by
  intro g hg
  refine ⟨?_, List.mem_map.mpr ⟨g, hg, rfl⟩, fun r _ => rfl⟩
  obtain ⟨t, ht, rfl⟩ := List.mem_map.mp hg
  exact List.Pairwise.filter _ (List.sorted_insertionSort sidLe _)

/-- Table used by the C8 witness: two rows of the same type, listed with
the larger `sentence_id` first. -/
def c8data : List Row :=
  [⟨PyVal.str "1", "A", 2, "t2", ["g"]⟩, ⟨PyVal.str "1", "A", 1, "t1", ["g"]⟩]

/-- Selection used by the C8 witness. -/
def c8sel : Selection := ⟨1, ["A"], ["g"]⟩

/-- Witness for C8 at a concrete table, selection, group and row. -/
theorem c8_witness :
    (("A", [(⟨PyVal.str "1", "A", 1, "t1", ["g"]⟩ : Row),
        (⟨PyVal.str "1", "A", 2, "t2", ["g"]⟩ : Row)])
        ∈ groupRows (filtered_data c8data c8sel)) ∧
      List.Sorted sidLe
        [(⟨PyVal.str "1", "A", 1, "t1", ["g"]⟩ : Row),
          (⟨PyVal.str "1", "A", 2, "t2", ["g"]⟩ : Row)] ∧
      renderRow (⟨PyVal.str "1", "A", 1, "t1", ["g"]⟩ : Row)
        = "\n        **g**\n\n        t1\n        " :=
  ⟨by decide,
    (c8_within_group_order_render c8data c8sel
      ("A", [(⟨PyVal.str "1", "A", 1, "t1", ["g"]⟩ : Row),
        (⟨PyVal.str "1", "A", 2, "t2", ["g"]⟩ : Row)]) (by decide)).1,
    (c8_within_group_order_render c8data c8sel
      ("A", [(⟨PyVal.str "1", "A", 1, "t1", ["g"]⟩ : Row),
        (⟨PyVal.str "1", "A", 2, "t2", ["g"]⟩ : Row)]) (by decide)).2.2
      (⟨PyVal.str "1", "A", 1, "t1", ["g"]⟩ : Row) (by decide)⟩

/-- Claim C9: a row is in the loaded table exactly when the source file
holds the corresponding raw row with every one of the five fields present;
a raw row with any missing field contributes nothing (it is dropped, not
repaired), and every loaded row has all five fields. -/
theorem c9_load_complete_rows (raws : List RawRow) (r : Row) :
    r ∈ load_data raws ↔
      (⟨some r.chapter, some r.type, some r.sentence_id, some r.text,
        some r.annotations⟩ : RawRow) ∈ raws := by
  simp only [load_data, List.mem_filterMap]
  constructor
  · rintro ⟨raw, hmem, hr⟩
    obtain ⟨c, t, s, x, a⟩ := raw
    cases c <;> cases t <;> cases s <;> cases x <;> cases a <;>
      simp only [toRow, Option.some.injEq, reduceCtorEq] at hr
    subst hr
    exact hmem
  · intro hmem
    exact ⟨_, hmem, rfl⟩

/-- Claim C10: invoking the cached load step twice in one session, with
the same source contents, returns the same table both times. -/
theorem c10_load_twice_identical (cache : Option (List Row))
    (raws : List RawRow) :
    (load_step (load_step cache raws).2 raws).1 = (load_step cache raws).1 := by
  cases cache <;> rfl
